import Mathlib

/-!
Shallow embedding of the ntex-rest-api-example service: the `HttpError`
envelope (`src/error.rs`), the todo data shapes (`src/models/todo.rs`),
the five stub handlers and their route registrations (`src/services/todo.rs`),
the swagger endpoint (`src/services/openapi.rs`), the default catch-all
(`src/services/mod.rs`) and the request dispatch wired up in `src/main.rs`.
-/

/-- Model of `ntex::http::StatusCode` (from the `http` crate): a status code
number. Only the code participates in equality, as in the crate. -/
structure StatusCode where
  code : Nat
deriving DecidableEq, Repr

/-- `http::StatusCode::OK`. -/
def StatusCode.OK : StatusCode := ⟨200⟩

/-- `http::StatusCode::CREATED`. -/
def StatusCode.CREATED : StatusCode := ⟨201⟩

/-- `http::StatusCode::BAD_REQUEST`. -/
def StatusCode.BAD_REQUEST : StatusCode := ⟨400⟩

/-- `http::StatusCode::NOT_FOUND`. -/
def StatusCode.NOT_FOUND : StatusCode := ⟨404⟩

/-- `http::StatusCode::INTERNAL_SERVER_ERROR`. -/
def StatusCode.INTERNAL_SERVER_ERROR : StatusCode := ⟨500⟩

/-- `http::StatusCode::canonical_reason`, restricted to the codes this
program constructs (the crate's table agrees on these entries). -/
def StatusCode.canonicalReason (s : StatusCode) : Option String :=
  match s.code with
  | 200 => some "OK"
  | 201 => some "Created"
  | 400 => some "Bad Request"
  | 404 => some "Not Found"
  | 500 => some "Internal Server Error"
  | _ => none

/-- The `Display` impl of `http::StatusCode`: the numeric code, a space,
then the canonical reason (or a placeholder when unknown). -/
def StatusCode.display (s : StatusCode) : String :=
  toString s.code ++ " " ++ (s.canonicalReason.getD "<unknown status code>")

/-- `impl Default for http::StatusCode` returns `StatusCode::OK`. -/
def statusCodeDefault : StatusCode := StatusCode.OK

/-- Model of a `serde_json` value, the data-format level that the derived
`Serialize`/`Deserialize` impls of this program read and write. -/
inductive Json where
  | str (s : String)
  | num (n : Int)
  | bool (b : Bool)
  | null
  | arr (elems : List Json)
  | obj (fields : List (String × Json))

/-- Lower-case hex digit, as used by `serde_json` for control escapes. -/
def hexDigit (n : Nat) : Char :=
  if n < 10 then Char.ofNat (48 + n) else Char.ofNat (87 + n)

/-- `serde_json` string-character escaping: quote and backslash get a
backslash; control characters use the short escapes or a `\u00XX` form. -/
def escapeJsonChar (c : Char) : List Char :=
  if c = Char.ofNat 34 then [Char.ofNat 92, Char.ofNat 34]
  else if c = Char.ofNat 92 then [Char.ofNat 92, Char.ofNat 92]
  else if c = Char.ofNat 8 then [Char.ofNat 92, 'b']
  else if c = Char.ofNat 9 then [Char.ofNat 92, 't']
  else if c = Char.ofNat 10 then [Char.ofNat 92, 'n']
  else if c = Char.ofNat 12 then [Char.ofNat 92, 'f']
  else if c = Char.ofNat 13 then [Char.ofNat 92, 'r']
  else if c.toNat < 32 then
    [Char.ofNat 92, 'u', '0', '0', hexDigit (c.toNat / 16), hexDigit (c.toNat % 16)]
  else [c]

/-- Escape a whole string for inclusion in a JSON document. -/
def jsonEscape (s : String) : String :=
  String.mk (s.data.map escapeJsonChar).flatten

mutual

/-- `serde_json::to_string` on a JSON value: compact rendering. -/
def Json.render : Json → String
  | .str s => "\"" ++ jsonEscape s ++ "\""
  | .num n => toString n
  | .bool b => if b then "true" else "false"
  | .null => "null"
  | .arr es => "[" ++ Json.renderList es ++ "]"
  | .obj fs => "\x7b" ++ Json.renderFields fs ++ "\x7d"

/-- Comma-separated rendering of array elements. -/
def Json.renderList : List Json → String
  | [] => ""
  | [j] => j.render
  | j :: rest => j.render ++ "," ++ Json.renderList rest

/-- Comma-separated rendering of object fields. -/
def Json.renderFields : List (String × Json) → String
  | [] => ""
  | [(k, v)] => "\"" ++ jsonEscape k ++ "\":" ++ v.render
  | (k, v) :: rest => "\"" ++ jsonEscape k ++ "\":" ++ v.render ++ "," ++ Json.renderFields rest

end

/-- Keys of a JSON object (empty for non-objects). -/
def Json.objKeys : Json → List String
  | .obj fs => fs.map Prod.fst
  | _ => []

/-- Scan of object fields for one key, as the derived serde visitor does:
a second occurrence of the key is an error (`none`), other keys are
ignored; returns the accumulated value (if any) otherwise. -/
def findField (key : String) : List (String × Json) → Option Json → Option (Option Json)
  | [], acc => some acc
  | (k, v) :: rest, acc =>
    if k = key then
      match acc with
      | some _ => none
      | none => findField key rest (some v)
    else findField key rest acc

/-- The `HttpError` struct of `src/error.rs`: a message and a status code;
the status is marked `#[serde(skip)]`. -/
structure HttpError where
  msg : String
  status : StatusCode
deriving DecidableEq, Repr

/-- Derived `Serialize` for `HttpError`: the `status` field is skipped, so
only `msg` is emitted. -/
def HttpError.toJson (e : HttpError) : Json :=
  Json.obj [("msg", Json.str e.msg)]

/-- Derived `Deserialize` for `HttpError`: `msg` is read from the input
(a required string field, duplicates rejected, unknown fields ignored);
the skipped `status` field takes its `Default` value. -/
def HttpError.fromJson (j : Json) : Option HttpError :=
  match j with
  | Json.obj fs =>
    match findField "msg" fs none with
    | some (some (Json.str s)) => some ⟨s, statusCodeDefault⟩
    | _ => none
  | _ => none

/-- Rust format-string interpolation for the format strings this program
uses: each brace pair consumes the next argument, other characters are
literal. -/
def rustFormatChars : List Char → List String → List Char
  | [], _ => []
  | c1 :: c2 :: rest, a :: args =>
    if c1 = Char.ofNat 123 ∧ c2 = Char.ofNat 125 then
      a.data ++ rustFormatChars rest args
    else
      c1 :: rustFormatChars (c2 :: rest) (a :: args)
  | c :: rest, args => c :: rustFormatChars rest args

/-- The `Display` impl for `HttpError`: `write!(f, "[\x7b\x7d] \x7b\x7d", self.status, self.msg)`. -/
def HttpError.display (e : HttpError) : String :=
  String.mk (rustFormatChars "[\x7b\x7d] \x7b\x7d".data [e.status.display, e.msg])

/-- An HTTP response: status line, optional content type, body bytes
(bytes modelled as a string). -/
structure HttpResponse where
  status : StatusCode
  contentType : Option String
  body : String
deriving DecidableEq, Repr

/-- `WebResponseError::error_response` for `HttpError`
(`src/error.rs`): builds a response from `self.status` with
`.json(&self)` as the body. -/
def HttpError.error_response (e : HttpError) : HttpResponse :=
  ⟨e.status, some "application/json", (HttpError.toJson e).render⟩

/-- The `Todo` model of `src/models/todo.rs`. -/
structure Todo where
  id : Int
  title : String
  completed : Bool
deriving DecidableEq, Repr

/-- The `TodoPartial` model of `src/models/todo.rs`: the client-supplied
creation/update payload. -/
structure TodoPartial where
  title : String
deriving DecidableEq, Repr

/-- Derived `Deserialize` for `TodoPartial`: requires a string `title`
field (duplicates rejected, unknown fields ignored). -/
def TodoPartial.fromJson (j : Json) : Option TodoPartial :=
  match j with
  | Json.obj fs =>
    match findField "title" fs none with
    | some (some (Json.str s)) => some ⟨s⟩
    | _ => none
  | _ => none

/-- `GET /todos` handler (`get_todos` in `src/services/todo.rs`):
`HttpResponse::Ok().finish()`. -/
def get_todos : HttpResponse := ⟨StatusCode.OK, none, ""⟩

/-- `POST /todos` handler (`create_todo`): the extracted body is ignored;
`HttpResponse::Created().finish()`. -/
def create_todo ( _todo : TodoPartial) : HttpResponse := ⟨StatusCode.CREATED, none, ""⟩

/-- `GET /todos/\x7bid\x7d` handler (`get_todo`): takes no extractor, so the id
never reaches it; `HttpResponse::Ok().finish()`. -/
def get_todo : HttpResponse := ⟨StatusCode.OK, none, ""⟩

/-- `PUT /todos/\x7bid\x7d` handler (`update_todo`): `HttpResponse::Ok().finish()`. -/
def update_todo : HttpResponse := ⟨StatusCode.OK, none, ""⟩

/-- `DELETE /todos/\x7bid\x7d` handler (`delete_todo`): `HttpResponse::Ok().finish()`. -/
def delete_todo : HttpResponse := ⟨StatusCode.OK, none, ""⟩

namespace Services

/-- The catch-all `services::default` of `src/services/mod.rs`:
`HttpResponse::NotFound().finish()`. -/
def default : HttpResponse := ⟨StatusCode.NOT_FOUND, none, ""⟩

end Services

/-- A file served by `utoipa_swagger_ui::serve`: raw bytes (modelled as a
string) and a declared content type. -/
structure SwaggerFile where
  bytes : String
  content_type : String
deriving DecidableEq, Repr

/-- The external effects `get_swagger` depends on:
`ApiDoc::openapi().to_json()` (which may fail with a serialization error)
and `utoipa_swagger_ui::serve` (which may fail, or find no file). -/
structure SwaggerEnv where
  toJsonResult : Except String String
  serve : String → Except String (Option SwaggerFile)

/-- The `get_swagger` handler of `src/services/openapi.rs`, serving
`GET /explorer/\x7btail\x7d*`: for `swagger.json` the OpenAPI document (a
serialization failure becomes a 500 `HttpError`), otherwise a lookup in
the bundled swagger-ui assets (a lookup failure becomes a 500, a missing
file a 404 naming the path, a found file a 200 with its content type). -/
def get_swagger (env : SwaggerEnv) (tail : String) : Except HttpError HttpResponse :=
  if tail = "swagger.json" then
    match env.toJsonResult with
    | Except.ok spec =>
      Except.ok ⟨StatusCode.OK, some "application/json", spec⟩
    | Except.error err =>
      Except.error ⟨"Error generating OpenAPI spec: " ++ err, StatusCode.INTERNAL_SERVER_ERROR⟩
  else
    match env.serve tail with
    | Except.error err =>
      Except.error ⟨"Error serving Swagger UI: " ++ err, StatusCode.INTERNAL_SERVER_ERROR⟩
    | Except.ok none =>
      Except.error ⟨"path not found: " ++ tail, StatusCode.NOT_FOUND⟩
    | Except.ok (some file) =>
      Except.ok ⟨StatusCode.OK, some file.content_type, file.bytes⟩

/-- The transport layer's handling of a fallible handler result: an `Err`
is turned into a response via `WebResponseError::error_response`. -/
def runFallible (r : Except HttpError HttpResponse) : HttpResponse :=
  match r with
  | Except.ok resp => resp
  | Except.error e => e.error_response

/-- Response produced by the ntex `Json` extractor when the request body
does not deserialize as the expected type: 400 Bad Request, produced
before the handler runs (framework behaviour; the spec relies only on the
status). -/
def jsonExtractError : HttpResponse := ⟨StatusCode.BAD_REQUEST, none, ""⟩

/-- An HTTP request method. -/
inductive Method where
  | GET
  | POST
  | PUT
  | DELETE
  | other (name : String)
deriving DecidableEq, Repr

/-- An HTTP request: method, path split into segments, and the request
body already parsed as JSON (a body that is not valid JSON behaves like
one that fails the schema, rejected by the extractor). -/
structure Request where
  method : Method
  segments : List String
  body : Json

/-- Whether a method and path match a registered route, per the
registrations in `main.rs`: the five todo routes of
`services::todo::ntex_config` (a `\x7bid\x7d` segment matches any nonempty
segment) and the `/explorer/` scope of `services::openapi::ntex_config`
whose `\x7btail\x7d*` pattern catches every GET under it. -/
def routeMatches (m : Method) (segs : List String) : Bool :=
  match m, segs with
  | Method.GET, ["todos"] => true
  | Method.POST, ["todos"] => true
  | Method.GET, ["todos", id] => if id = "" then false else true
  | Method.PUT, ["todos", id] => if id = "" then false else true
  | Method.DELETE, ["todos", id] => if id = "" then false else true
  | Method.GET, "explorer" :: _ => true
  | _, _ => false

/-- Request dispatch as assembled in `main.rs`: the `/explorer/` scope and
the five todo routes (their patterns are disjoint, so registration order
does not matter), with `services::default` for everything unmatched. The
`POST /todos` route runs the `Json<TodoPartial>` extractor before the
handler. -/
def dispatch (env : SwaggerEnv) (req : Request) : HttpResponse :=
  match req.method, req.segments with
  | Method.GET, ["todos"] => get_todos
  | Method.POST, ["todos"] =>
    match TodoPartial.fromJson req.body with
    | some t => create_todo t
    | none => jsonExtractError
  | Method.GET, ["todos", id] =>
    if id = "" then Services.default else get_todo
  | Method.PUT, ["todos", id] =>
    if id = "" then Services.default else update_todo
  | Method.DELETE, ["todos", id] =>
    if id = "" then Services.default else delete_todo
  | Method.GET, "explorer" :: rest =>
    runFallible (get_swagger env (String.intercalate "/" rest))
  | _, _ => Services.default

/-- An operation entry of the generated OpenAPI document: HTTP method,
path template, optional request-body schema, and the declared
(status, body schema) response pairs — the contents of one
`#[utoipa::path(...)]` annotation in `src/services/todo.rs`. -/
structure ApiOperation where
  method : Method
  path : String
  request_body : Option String
  responses : List (Nat × String)
deriving DecidableEq, Repr

/-- The `utoipa::path` annotation on `get_todos`. -/
def get_todos_doc : ApiOperation :=
  ⟨Method.GET, "/todos", none, [(200, "[Todo]")]⟩

/-- The `utoipa::path` annotation on `create_todo`. -/
def create_todo_doc : ApiOperation :=
  ⟨Method.POST, "/todos", some "TodoPartial", [(201, "Todo")]⟩

/-- The `utoipa::path` annotation on `get_todo`. -/
def get_todo_doc : ApiOperation :=
  ⟨Method.GET, "/todos/\x7bid\x7d", none, [(200, "Todo"), (404, "HttpError")]⟩

/-- The `utoipa::path` annotation on `update_todo`. -/
def update_todo_doc : ApiOperation :=
  ⟨Method.PUT, "/todos/\x7bid\x7d", some "TodoPartial", [(200, "Todo"), (404, "HttpError")]⟩

/-- The `utoipa::path` annotation on `delete_todo`. -/
def delete_todo_doc : ApiOperation :=
  ⟨Method.DELETE, "/todos/\x7bid\x7d", none, [(200, "Todo"), (404, "HttpError")]⟩

/-- The path list of the OpenAPI document generated by `ApiDoc`
(`#[openapi(paths(...))]` in `src/services/openapi.rs`): the five todo
operations, in declaration order. -/
def apiDocPaths : List ApiOperation :=
  [get_todos_doc, create_todo_doc, get_todo_doc, update_todo_doc, delete_todo_doc]

/-- Method and path template of each route registered by
`services::todo::ntex_config`, read off the `#[web::...]` route
attributes in `src/services/todo.rs`, in registration order. -/
def registeredTodoRoutes : List (Method × String) :=
  [(Method.GET, "/todos"), (Method.POST, "/todos"),
   (Method.GET, "/todos/\x7bid\x7d"), (Method.PUT, "/todos/\x7bid\x7d"),
   (Method.DELETE, "/todos/\x7bid\x7d")]

/-- C1: for every `HttpError`, `error_response` yields a response whose
status line equals the stored `status` field and whose body is exactly
the JSON object with the single field `msg`; in particular the `status`
field never appears in the serialized body. -/
theorem c1_error_response_shape (e : HttpError) :
    (HttpError.error_response e).status = e.status ∧
    (HttpError.error_response e).body = Json.render (Json.obj [("msg", Json.str e.msg)]) ∧
    Json.objKeys (HttpError.toJson e) = ["msg"] ∧
    "status" ∉ Json.objKeys (HttpError.toJson e) := by
  refine ⟨rfl, rfl, rfl, ?_⟩
  simp [HttpError.toJson, Json.objKeys]

/-- C1 at a concrete error value. -/
theorem c1_error_response_shape_witness :
    (HttpError.error_response ⟨"boom", StatusCode.NOT_FOUND⟩).status = StatusCode.NOT_FOUND ∧
    (HttpError.error_response ⟨"boom", StatusCode.NOT_FOUND⟩).body =
      Json.render (Json.obj [("msg", Json.str "boom")]) ∧
    Json.objKeys (HttpError.toJson ⟨"boom", StatusCode.NOT_FOUND⟩) = ["msg"] ∧
    "status" ∉ Json.objKeys (HttpError.toJson ⟨"boom", StatusCode.NOT_FOUND⟩) :=
  c1_error_response_shape ⟨"boom", StatusCode.NOT_FOUND⟩

/-- C5: each of the five todo handlers unconditionally returns its fixed
success status — 200 for list, get-by-id, update and delete, 201 for
create — with an empty body. -/
theorem c5_stub_handlers :
    get_todos = ⟨StatusCode.OK, none, ""⟩ ∧
    (∀ t : TodoPartial, create_todo t = ⟨StatusCode.CREATED, none, ""⟩) ∧
    get_todo = ⟨StatusCode.OK, none, ""⟩ ∧
    update_todo = ⟨StatusCode.OK, none, ""⟩ ∧
    delete_todo = ⟨StatusCode.OK, none, ""⟩ :=
  ⟨rfl, fun _ => rfl, rfl, rfl, rfl⟩

/-- C5 at a concrete creation payload. -/
theorem c5_stub_handlers_witness :
    create_todo ⟨"buy milk"⟩ = ⟨StatusCode.CREATED, none, ""⟩ ∧
    get_todos = ⟨StatusCode.OK, none, ""⟩ :=
  ⟨c5_stub_handlers.2.1 ⟨"buy milk"⟩, c5_stub_handlers.1⟩

/-- C7: the generated OpenAPI document's operations carry exactly the
method/path pairs of the five registered todo routes (and no others),
each with its declared status/schema response pairs. -/
theorem c7_openapi_paths_match_routes :
    apiDocPaths.map (fun op => (op.method, op.path)) = registeredTodoRoutes ∧
    apiDocPaths.map ApiOperation.responses =
      [[(200, "[Todo]")], [(201, "Todo")],
       [(200, "Todo"), (404, "HttpError")],
       [(200, "Todo"), (404, "HttpError")],
       [(200, "Todo"), (404, "HttpError")]] ∧
    apiDocPaths.map ApiOperation.request_body =
      [none, some "TodoPartial", none, some "TodoPartial", none] ∧
    apiDocPaths.length = 5 :=
  ⟨rfl, rfl, rfl, rfl⟩

/-- C8: the `Display` form of every `HttpError` is the status's display
form between square brackets, a space, then the message. -/
theorem c8_display_form (e : HttpError) :
    HttpError.display e = "[" ++ StatusCode.display e.status ++ "] " ++ e.msg := by
  unfold HttpError.display
  cases StatusCode.display e.status with
  | mk d =>
    cases e.msg with
    | mk m =>
      apply String.ext
      show rustFormatChars _ _ = _
      rw [show rustFormatChars "[\x7b\x7d] \x7b\x7d".data [String.mk d, String.mk m]
            = '[' :: (d ++ (']' :: ' ' :: (m ++ []))) from rfl]
      simp [String.data_append]

/-- C8 at a concrete error value: a 404 renders as
`[404 Not Found] nope`. -/
theorem c8_display_form_witness :
    HttpError.display ⟨"nope", StatusCode.NOT_FOUND⟩ =
      "[" ++ StatusCode.display StatusCode.NOT_FOUND ++ "] " ++ "nope" ∧
    "[" ++ StatusCode.display StatusCode.NOT_FOUND ++ "] " ++ "nope" = "[404 Not Found] nope" :=
  ⟨c8_display_form ⟨"nope", StatusCode.NOT_FOUND⟩, rfl⟩

/-- C10: serializing an `HttpError` and deserializing the result succeeds
and yields the same `msg` with `status` reset to the default status code
(200 OK); the round-trip is the identity exactly when the original
status is 200 OK. -/
theorem c10_serde_roundtrip (e : HttpError) :
    HttpError.fromJson (HttpError.toJson e) = some ⟨e.msg, statusCodeDefault⟩ ∧
    statusCodeDefault = StatusCode.OK ∧
    (HttpError.fromJson (HttpError.toJson e) = some e ↔ e.status = StatusCode.OK) := by
  refine ⟨rfl, rfl, ?_⟩
  constructor
  · intro h
    have h1 : HttpError.fromJson (HttpError.toJson e) = some ⟨e.msg, statusCodeDefault⟩ := rfl
    rw [h1] at h
    cases e with
    | mk m st =>
      have h2 := Option.some.inj h
      have h3 := congrArg HttpError.status h2
      exact h3.symm
  · intro h
    cases e with
    | mk m st =>
      cases h
      rfl

/-- C10 at a concrete error value: a 404 error round-trips to the same
message with status 200 OK, so the round-trip is not the identity
there. -/
theorem c10_serde_roundtrip_witness :
    HttpError.fromJson (HttpError.toJson ⟨"m", StatusCode.NOT_FOUND⟩) =
      some ⟨"m", statusCodeDefault⟩ ∧
    ¬ (HttpError.fromJson (HttpError.toJson ⟨"m", StatusCode.NOT_FOUND⟩) =
        some ⟨"m", StatusCode.NOT_FOUND⟩) :=
  ⟨(c10_serde_roundtrip ⟨"m", StatusCode.NOT_FOUND⟩).1,
   fun h => by
     have h2 := (c10_serde_roundtrip ⟨"m", StatusCode.NOT_FOUND⟩).2.2.mp h
     exact absurd (congrArg StatusCode.code h2) (by decide)⟩

/-- A swagger environment whose document serializes successfully and
whose asset set is empty. -/
def envAssetMissing : SwaggerEnv :=
  ⟨Except.ok "doc", fun _ => Except.ok none⟩

/-- A swagger environment whose document fails to serialize. -/
def envDocErr : SwaggerEnv :=
  ⟨Except.error "boom", fun _ => Except.ok none⟩

/-- A swagger environment whose asset lookup finds a file everywhere. -/
def envAssetFound : SwaggerEnv :=
  ⟨Except.ok "doc", fun _ => Except.ok (some ⟨"<html>", "text/html"⟩)⟩

/-- A swagger environment whose asset lookup mechanism itself fails. -/
def envServeFail : SwaggerEnv :=
  ⟨Except.ok "doc", fun _ => Except.error "io"⟩

/-- Rendering a JSON object always produces a nonempty string (it is
wrapped in braces). -/
theorem json_render_obj_ne_empty (fs : List (String × Json)) :
    Json.render (Json.obj fs) ≠ "" := by
  have hr : Json.render (Json.obj fs) = "\x7b" ++ Json.renderFields fs ++ "\x7d" := by
    simp [Json.render]
  intro h
  rw [hr] at h
  have h2 := congrArg String.length h
  rw [String.length_append, String.length_append] at h2
  have h3 : (1 : Nat) + (Json.renderFields fs).length + 1 = 0 := h2
  omega

/-- C2: a request matching no registered route gets the catch-all 404
with an empty body, while the 404 the explorer produces for a missing
asset is an `HttpError` response whose body is the JSON `msg` object —
in particular nonempty, so the two 404s are distinguishable. -/
theorem c2_unmatched_404_empty (env : SwaggerEnv) (m : Method)
    (segs : List String) (b : Json) (tail : String)
    (hm : routeMatches m segs = false)
    (ht : tail ≠ "swagger.json")
    (hs : env.serve tail = Except.ok none) :
    dispatch env ⟨m, segs, b⟩ = ⟨StatusCode.NOT_FOUND, none, ""⟩ ∧
    runFallible (get_swagger env tail) =
      HttpError.error_response ⟨"path not found: " ++ tail, StatusCode.NOT_FOUND⟩ ∧
    (runFallible (get_swagger env tail)).status = StatusCode.NOT_FOUND ∧
    (runFallible (get_swagger env tail)).body ≠ "" := by
  have hg : get_swagger env tail =
      Except.error ⟨"path not found: " ++ tail, StatusCode.NOT_FOUND⟩ := by
    unfold get_swagger
    rw [if_neg ht, hs]
  refine ⟨?_, ?_, ?_, ?_⟩
  · unfold dispatch
    split <;>
      first
        | rfl
        | simp_all [routeMatches, Services.default]
  · rw [hg]
    rfl
  · rw [hg]
    rfl
  · rw [hg]
    show Json.render (Json.obj [("msg", Json.str _)]) ≠ ""
    exact json_render_obj_ne_empty _

/-- C2 at a concrete request: `PATCH /nope` (an unregistered pair) gets
the empty-bodied 404, while `GET /explorer/missing.css` over an empty
asset set gets the JSON-bodied 404. -/
theorem c2_unmatched_404_empty_witness :
    dispatch envAssetMissing ⟨Method.other "PATCH", ["nope"], Json.null⟩ =
      ⟨StatusCode.NOT_FOUND, none, ""⟩ ∧
    runFallible (get_swagger envAssetMissing "missing.css") =
      HttpError.error_response ⟨"path not found: " ++ "missing.css", StatusCode.NOT_FOUND⟩ ∧
    (runFallible (get_swagger envAssetMissing "missing.css")).status = StatusCode.NOT_FOUND ∧
    (runFallible (get_swagger envAssetMissing "missing.css")).body ≠ "" :=
  c2_unmatched_404_empty envAssetMissing (Method.other "PATCH") ["nope"] Json.null
    "missing.css" (by rfl) (by decide) rfl

/-- C3: for `swagger.json`, a successful document serialization yields a
200 response with the document as JSON body; a serialization failure
yields a 500 `HttpError`, and every failure of this branch is such a
500 caused by the serialization. -/
theorem c3_swagger_json_branch (env : SwaggerEnv) :
    (∀ spec, env.toJsonResult = Except.ok spec →
      get_swagger env "swagger.json" =
        Except.ok ⟨StatusCode.OK, some "application/json", spec⟩) ∧
    (∀ err, env.toJsonResult = Except.error err →
      get_swagger env "swagger.json" =
        Except.error ⟨"Error generating OpenAPI spec: " ++ err,
          StatusCode.INTERNAL_SERVER_ERROR⟩) ∧
    (∀ e, get_swagger env "swagger.json" = Except.error e →
      e.status = StatusCode.INTERNAL_SERVER_ERROR ∧
      ∃ err, env.toJsonResult = Except.error err) := by
  refine ⟨?_, ?_, ?_⟩
  · intro spec h
    unfold get_swagger
    rw [if_pos rfl, h]
  · intro err h
    unfold get_swagger
    rw [if_pos rfl, h]
  · intro e h
    unfold get_swagger at h
    rw [if_pos rfl] at h
    cases he : env.toJsonResult with
    | ok spec =>
      rw [he] at h
      exact absurd h (by simp)
    | error err =>
      rw [he] at h
      injection h with h2
      subst h2
      exact ⟨rfl, err, rfl⟩

/-- C3 at concrete environments: one serializing successfully, one
failing. -/
theorem c3_swagger_json_branch_witness :
    get_swagger envAssetMissing "swagger.json" =
      Except.ok ⟨StatusCode.OK, some "application/json", "doc"⟩ ∧
    get_swagger envDocErr "swagger.json" =
      Except.error ⟨"Error generating OpenAPI spec: " ++ "boom",
        StatusCode.INTERNAL_SERVER_ERROR⟩ :=
  ⟨(c3_swagger_json_branch envAssetMissing).1 "doc" rfl,
   (c3_swagger_json_branch envDocErr).2.1 "boom" rfl⟩

/-- C4: for every explorer path other than `swagger.json`: a found asset
yields 200 with the asset bytes and its declared content type; a missing
asset yields a 404 `HttpError` whose message names the requested path;
a failure of the lookup mechanism yields a 500 `HttpError`. -/
theorem c4_explorer_asset_branch (env : SwaggerEnv) (tail : String)
    (ht : tail ≠ "swagger.json") :
    (∀ f, env.serve tail = Except.ok (some f) →
      get_swagger env tail =
        Except.ok ⟨StatusCode.OK, some f.content_type, f.bytes⟩) ∧
    (env.serve tail = Except.ok none →
      get_swagger env tail =
        Except.error ⟨"path not found: " ++ tail, StatusCode.NOT_FOUND⟩) ∧
    (∀ err, env.serve tail = Except.error err →
      get_swagger env tail =
        Except.error ⟨"Error serving Swagger UI: " ++ err,
          StatusCode.INTERNAL_SERVER_ERROR⟩) := by
  refine ⟨?_, ?_, ?_⟩
  · intro f h
    unfold get_swagger
    rw [if_neg ht, h]
  · intro h
    unfold get_swagger
    rw [if_neg ht, h]
  · intro err h
    unfold get_swagger
    rw [if_neg ht, h]

/-- C4 at concrete environments and path `index.html`: found, missing
and failing asset lookups. -/
theorem c4_explorer_asset_branch_witness :
    get_swagger envAssetFound "index.html" =
      Except.ok ⟨StatusCode.OK, some "text/html", "<html>"⟩ ∧
    get_swagger envAssetMissing "index.html" =
      Except.error ⟨"path not found: " ++ "index.html", StatusCode.NOT_FOUND⟩ ∧
    get_swagger envServeFail "index.html" =
      Except.error ⟨"Error serving Swagger UI: " ++ "io",
        StatusCode.INTERNAL_SERVER_ERROR⟩ :=
  ⟨(c4_explorer_asset_branch envAssetFound "index.html" (by decide)).1
      ⟨"<html>", "text/html"⟩ rfl,
   (c4_explorer_asset_branch envAssetMissing "index.html" (by decide)).2.1 rfl,
   (c4_explorer_asset_branch envServeFail "index.html" (by decide)).2.2 "io" rfl⟩

/-- C6 counterexample: a `POST /todos` whose JSON body supplies
`title = "x"` is accepted (the extractor parses it), but the response is
201 with an empty body, while any JSON serialization carrying the title
is nonempty — so the response body does not round-trip the supplied
title. -/
theorem c6_create_counterexample :
    TodoPartial.fromJson (Json.obj [("title", Json.str "x")]) = some ⟨"x"⟩ ∧
    dispatch envAssetMissing
        ⟨Method.POST, ["todos"], Json.obj [("title", Json.str "x")]⟩ =
      ⟨StatusCode.CREATED, none, ""⟩ ∧
    Json.render (Json.obj [("title", Json.str "x")]) ≠ "" :=
  ⟨rfl, rfl, json_render_obj_ne_empty _⟩

/-- C6 (amended): a `POST /todos` body that does not parse as
`TodoPartial` (e.g. missing `title`) is rejected with 400 before the
handler runs; a body with `title` present reaches the handler and the
response is 201 with an empty body. -/
theorem c6_create_validation (env : SwaggerEnv) (jgood jbad : Json)
    (t : TodoPartial)
    (hg : TodoPartial.fromJson jgood = some t)
    (hb : TodoPartial.fromJson jbad = none) :
    dispatch env ⟨Method.POST, ["todos"], jbad⟩ = jsonExtractError ∧
    jsonExtractError = ⟨StatusCode.BAD_REQUEST, none, ""⟩ ∧
    dispatch env ⟨Method.POST, ["todos"], jgood⟩ = create_todo t ∧
    create_todo t = ⟨StatusCode.CREATED, none, ""⟩ := by
  have hdb : dispatch env ⟨Method.POST, ["todos"], jbad⟩
      = match TodoPartial.fromJson jbad with
        | some t => create_todo t
        | none => jsonExtractError := rfl
  have hdg : dispatch env ⟨Method.POST, ["todos"], jgood⟩
      = match TodoPartial.fromJson jgood with
        | some t => create_todo t
        | none => jsonExtractError := rfl
  refine ⟨?_, rfl, ?_, rfl⟩
  · rw [hdb, hb]
  · rw [hdg, hg]

/-- C6 (amended) at concrete bodies: an empty JSON object is rejected
with 400; a body with `title = "x"` yields a 201 with empty body. -/
theorem c6_create_validation_witness :
    dispatch envAssetMissing ⟨Method.POST, ["todos"], Json.obj []⟩ =
      jsonExtractError ∧
    jsonExtractError = ⟨StatusCode.BAD_REQUEST, none, ""⟩ ∧
    dispatch envAssetMissing
        ⟨Method.POST, ["todos"], Json.obj [("title", Json.str "x")]⟩ =
      create_todo ⟨"x"⟩ ∧
    create_todo ⟨"x"⟩ = ⟨StatusCode.CREATED, none, ""⟩ :=
  c6_create_validation envAssetMissing (Json.obj [("title", Json.str "x")])
    (Json.obj []) ⟨"x"⟩ rfl rfl

/-- C9: the by-id routes accept any nonempty id segment (not only
integers) — the route matches and the request reaches the handler — and
since the handlers take no path extractor, two requests to the same
by-id handler with different ids produce identical responses. -/
theorem c9_id_never_read (env : SwaggerEnv) (id id2 : String)
    (b b2 : Json) (h1 : id ≠ "") (h2 : id2 ≠ "") :
    routeMatches Method.GET ["todos", id] = true ∧
    routeMatches Method.PUT ["todos", id] = true ∧
    routeMatches Method.DELETE ["todos", id] = true ∧
    dispatch env ⟨Method.GET, ["todos", id], b⟩ = get_todo ∧
    dispatch env ⟨Method.GET, ["todos", id], b⟩ =
      dispatch env ⟨Method.GET, ["todos", id2], b2⟩ ∧
    dispatch env ⟨Method.PUT, ["todos", id], b⟩ =
      dispatch env ⟨Method.PUT, ["todos", id2], b2⟩ ∧
    dispatch env ⟨Method.DELETE, ["todos", id], b⟩ =
      dispatch env ⟨Method.DELETE, ["todos", id2], b2⟩ := by
  have hget : ∀ (i : String) (bb : Json), i ≠ "" →
      dispatch env ⟨Method.GET, ["todos", i], bb⟩ = get_todo := by
    intro i bb hi
    have hd : dispatch env ⟨Method.GET, ["todos", i], bb⟩
        = if i = "" then Services.default else get_todo := rfl
    rw [hd, if_neg hi]
  have hput : ∀ (i : String) (bb : Json), i ≠ "" →
      dispatch env ⟨Method.PUT, ["todos", i], bb⟩ = update_todo := by
    intro i bb hi
    have hd : dispatch env ⟨Method.PUT, ["todos", i], bb⟩
        = if i = "" then Services.default else update_todo := rfl
    rw [hd, if_neg hi]
  have hdel : ∀ (i : String) (bb : Json), i ≠ "" →
      dispatch env ⟨Method.DELETE, ["todos", i], bb⟩ = delete_todo := by
    intro i bb hi
    have hd : dispatch env ⟨Method.DELETE, ["todos", i], bb⟩
        = if i = "" then Services.default else delete_todo := rfl
    rw [hd, if_neg hi]
  refine ⟨?_, ?_, ?_, hget id b h1, ?_, ?_, ?_⟩
  · show (if id = "" then false else true) = true
    rw [if_neg h1]
  · show (if id = "" then false else true) = true
    rw [if_neg h1]
  · show (if id = "" then false else true) = true
    rw [if_neg h1]
  · rw [hget id b h1, hget id2 b2 h2]
  · rw [hput id b h1, hput id2 b2 h2]
  · rw [hdel id b h1, hdel id2 b2 h2]

/-- C9 at concrete ids: a non-numeric id `"abc"` and a numeric id `"42"`
are dispatched identically on all three by-id routes. -/
theorem c9_id_never_read_witness :
    routeMatches Method.GET ["todos", "abc"] = true ∧
    routeMatches Method.PUT ["todos", "abc"] = true ∧
    routeMatches Method.DELETE ["todos", "abc"] = true ∧
    dispatch envAssetMissing ⟨Method.GET, ["todos", "abc"], Json.null⟩ = get_todo ∧
    dispatch envAssetMissing ⟨Method.GET, ["todos", "abc"], Json.null⟩ =
      dispatch envAssetMissing ⟨Method.GET, ["todos", "42"], Json.bool true⟩ ∧
    dispatch envAssetMissing ⟨Method.PUT, ["todos", "abc"], Json.null⟩ =
      dispatch envAssetMissing ⟨Method.PUT, ["todos", "42"], Json.bool true⟩ ∧
    dispatch envAssetMissing ⟨Method.DELETE, ["todos", "abc"], Json.null⟩ =
      dispatch envAssetMissing ⟨Method.DELETE, ["todos", "42"], Json.bool true⟩ :=
  c9_id_never_read envAssetMissing "abc" "42" Json.null (Json.bool true)
    (by decide) (by decide)
